import Mathlib

/-!
Shallow embedding of `src/request.js` (the dispatch-and-authentication
layer of the SDK: signing, header building, URL construction, error
normalization, and the legacy route adapter), with proofs of the
specification claims about it.

Modelling conventions:
* JavaScript string-or-undefined values are `Option String` (`JsStr`);
  `none` is `undefined`, and JS truthiness of such a value is
  `jsTruthy` (undefined and the empty string are falsy).
* JavaScript objects used as string-keyed records are functions
  `String → Option JsVal`; header maps are `String → Option JsStr`
  (an entry may be present and hold the JS value `undefined`).
* External collaborators (the `md5` digest, the wall clock, the
  transport `ajax`, `JSON.parse`, and the current-user provider) are
  parameters of an explicit environment; effect counters record how
  often each collaborator was invoked.
-/

/-- A JavaScript primitive value, as far as the claims need one. -/
inductive JsVal where
  | vbool : Bool → JsVal
  | vnum : Int → JsVal
  | vstr : String → JsVal
  deriving DecidableEq, Repr

/-- JS truthiness of a primitive value. -/
def JsVal.truthy : JsVal → Bool
  | .vbool b => b
  | .vnum n => n != 0
  | .vstr s => s != ""

/-- A JS string-or-undefined value (`none` = `undefined`). -/
abbrev JsStr := Option String

/-- JS truthiness of a string-or-undefined value. -/
def jsTruthy : JsStr → Bool
  | none => false
  | some s => s != ""

/-- JS `a || b` on string-or-undefined values. -/
def jsOr (a b : JsStr) : JsStr := if jsTruthy a then a else b

/-- JS string coercion applied when an optional string flows into string concatenation. -/
def jsStrVal : JsStr → String
  | none => "undefined"
  | some s => s

/-- JS `toLowerCase()`: lower-case every character (kernel-reducible
form of `String.toLower`). -/
def jsToLower (s : String) : String := String.mk (s.data.map Char.toLower)

/-- A JS object used as a string-keyed record. -/
abbrev JsObj := String → Option JsVal

/-- An object literal built from a key-value list. -/
def objOf : List (String × JsVal) → JsObj
  | [] => fun _ => none
  | (k, v) :: rest => fun k2 => if k2 = k then some v else objOf rest k2

/-- Truthiness of `obj && obj[k]` for a nullable object. -/
def objTruthyProp (o : Option JsObj) (k : String) : Bool :=
  match o with
  | none => false
  | some f =>
    match f k with
    | none => false
    | some v => v.truthy

/-- The underscore `extend({}, q, d)` merge: later sources win on key conflicts;
null/undefined sources are skipped. -/
def extend2 (q d : Option JsObj) : JsObj := fun k =>
  match d with
  | some dobj =>
    match dobj k with
    | some v => some v
    | none =>
      match q with
      | some qobj => qobj k
      | none => none
  | none =>
    match q with
    | some qobj => qobj k
    | none => none

/-- A header map; an entry may be present and hold the JS value `undefined`. -/
abbrev Headers := String → Option JsStr

/-- The JS assignment `headers[k] = v`. -/
def hset (h : Headers) (k : String) (v : JsStr) : Headers :=
  fun k2 => if k2 = k then some v else h k2

@[simp]
theorem hset_get (h : Headers) (k : String) (v : JsStr) (k2 : String) :
    hset h k v k2 = if k2 = k then some v else h k2 := rfl

/-- A structured error body exposing optional `code`/`error` fields. -/
structure ErrJson where
  code : Option Int := none
  error : Option String := none
  deriving DecidableEq, Repr

/-- The raw failure value delivered by the transport collaborator. -/
structure RawError where
  code : Option Int := none
  message : Option String := none
  responseText : JsStr := none
  response : Option ErrJson := none
  deriving DecidableEq, Repr

/-- Modelled from the spec: the `AVError` class lives in `./error`,
outside the embedded sources; per the spec, a NormalizedError carries a
numeric code and a human-readable message, either of which may be the
JS value `undefined`. -/
structure AVError where
  code : Option Int
  message : Option String
  deriving DecidableEq, Repr

/-- Truthiness of a numeric-or-undefined JS value. -/
def intTruthy : Option Int → Bool
  | none => false
  | some n => n != 0

/-- Per-call caller-supplied options. -/
structure AuthOptions where
  useMasterKey : Option Bool := none
  sessionToken : JsStr := none
  deriving DecidableEq, Repr

/-- The value the external current-user provider yields. -/
structure CurrentUser where
  _sessionToken : JsStr := none
  deriving DecidableEq, Repr

/-- The process-wide `AV` state read by the layer (`AV.applicationId`,
`AV._config`, the per-service URL table, ...). -/
structure AVState where
  applicationId : JsStr := none
  applicationKey : JsStr := none
  masterKey : JsStr := none
  hookKey : JsStr := none
  configUseMasterKey : Option Bool := none
  configProduction : Option Bool := none
  configUserAgent : String := ""
  configDisableCurrentUser : Bool := false
  serverURLs : String → Option String := fun _ => none

/-- The argument record handed to the transport collaborator `ajax`. -/
structure AjaxReq where
  method : JsStr
  url : String
  query : Option JsObj
  data : Option JsObj
  headers : Headers

/-- The environment: global state plus the external collaborators. -/
structure Env where
  av : AVState
  clientPlatform : JsStr := none
  now : Nat := 0
  md5 : String → String := fun _ => ""
  currentUser : Option CurrentUser := none
  parseJSON : String → Option ErrJson := fun _ => none
  ajaxResp : AjaxReq → Except RawError String := fun _ => Except.ok ""

/-- The function `sign(key, isMasterKey)`: the `X-LC-Sign` value; the wall clock and
the `md5` collaborator are explicit parameters. -/
def sign (md5 : String → String) (now : Nat) (key : String) (isMasterKey : Bool) : String :=
  let signature := md5 (toString now ++ key)
  if isMasterKey then
    signature ++ "," ++ toString now ++ ",master"
  else
    signature ++ "," ++ toString now

/-- The function `setAppId(headers, signKey)`: the source calls `sign` with one
argument there, so `isMasterKey` is `undefined`, i.e. falsy. -/
def setAppId (env : Env) (headers : Headers) (signKey : Bool) : Headers :=
  if signKey then
    hset headers "X-LC-Sign" (some (sign env.md5 env.now (jsStrVal env.av.applicationKey) false))
  else
    hset headers "X-LC-Key" env.av.applicationKey

/-- The chain `let useMasterKey = false` followed by the two typeof
tests in `setHeaders`: the per-call override wins when it is an actual
boolean, else the global default when it is an actual boolean, else
`false`. -/
def resolveUseMasterKey (authOptions : AuthOptions) (configUseMasterKey : Option Bool) : Bool :=
  let useMasterKey := false
  match authOptions.useMasterKey with
  | some b => b
  | none =>
    match configUseMasterKey with
    | some b => b
    | none => useMasterKey

/-- The synchronous part of `setHeaders(authOptions, signKey)`, up to
(not including) the promise that resolves the session token.  The
`console.warn` on a missing master key is a non-fatal diagnostic and is
not modelled. -/
def setHeadersSync (env : Env) (authOptions : AuthOptions) (signKey : Bool) : Headers :=
  let headers : Headers :=
    hset (hset (fun _ => none) "X-LC-Id" env.av.applicationId)
      "Content-Type" (some "application/json;charset=UTF-8")
  let useMasterKey : Bool := resolveUseMasterKey authOptions env.av.configUseMasterKey
  let headers :=
    if useMasterKey then
      if jsTruthy env.av.masterKey then
        if signKey then
          hset headers "X-LC-Sign" (some (sign env.md5 env.now (jsStrVal env.av.masterKey) true))
        else
          hset headers "X-LC-Key" (some (jsStrVal env.av.masterKey ++ ",master"))
      else
        setAppId env headers signKey
    else
      setAppId env headers signKey
  let headers :=
    if jsTruthy env.av.hookKey then
      hset headers "X-LC-Hook-Key" env.av.hookKey
    else
      headers
  let headers :=
    match env.av.configProduction with
    | some b => hset headers "X-LC-Prod" (some (if b then "true" else "false"))
    | none => headers
  hset headers (if !(jsTruthy env.clientPlatform) then "User-Agent" else "X-LC-UA")
    (some env.av.configUserAgent)

/-- Modelled from the spec: `getSessionToken` lives in `./utils`,
outside the embedded sources; per the spec, AuthOptions may carry an
explicit session token which is used directly. -/
def getSessionToken (authOptions : AuthOptions) : JsStr := authOptions.sessionToken

/-- The result of `setHeaders`: the resolved header map plus the number
of times the current-user provider was queried. -/
structure SetHeadersOut where
  headers : Headers
  userLookups : Nat

/-- The function `setHeaders(authOptions, signKey)`: the synchronous part followed by
the promise that resolves the session token, with the current-user
answer of the provider supplied by the environment. -/
def setHeaders (env : Env) (authOptions : AuthOptions) (signKey : Bool) : SetHeadersOut :=
  let headers := setHeadersSync env authOptions signKey
  let sessionToken := getSessionToken authOptions
  if jsTruthy sessionToken then
    { headers := hset headers "X-LC-Session" sessionToken, userLookups := 0 }
  else if !env.av.configDisableCurrentUser then
    match env.currentUser with
    | some currentUser =>
      if jsTruthy currentUser._sessionToken then
        { headers := hset headers "X-LC-Session" currentUser._sessionToken, userLookups := 1 }
      else
        { headers := headers, userLookups := 1 }
    | none => { headers := headers, userLookups := 1 }
  else
    { headers := headers, userLookups := 0 }

/-- The function `createApiUrl({service, version, path})`; a thrown `Error` is an
`Except.error`.  The `charAt(length - 1)` test of the source is expressed on
the character list of the (non-empty, by the guard) base URL. -/
def createApiUrl (av : AVState) (service version : Option String) (path : JsStr) :
    Except String String :=
  let service := service.getD "api"
  let version := version.getD "1.1"
  let apiURL := av.serverURLs service
  if !(jsTruthy apiURL) then
    Except.error ("undefined server URL for " ++ service)
  else
    let apiURL := jsStrVal apiURL
    let apiURL := if apiURL.data.getLast? ≠ some '/' then apiURL ++ "/" else apiURL
    let apiURL := apiURL ++ version
    let apiURL := if jsTruthy path then apiURL ++ jsStrVal path else apiURL
    Except.ok apiURL

/-- The function `handleError(error)`: the rejection value of the promise it
returns; `JSON.parse` (with its possible failure) is the `parseJSON`
parameter. -/
def handleError (parseJSON : String → Option ErrJson) (error : RawError) : AVError :=
  let errorJSON : ErrJson :=
    { code := if intTruthy error.code then error.code else some (-1),
      error := jsOr error.message error.responseText }
  let errorJSON :=
    if (match error.response with
        | some r => intTruthy r.code
        | none => false) then
      match error.response with
      | some r => r
      | none => errorJSON
    else if jsTruthy error.responseText then
      match parseJSON (jsStrVal error.responseText) with
      | some parsed => parsed
      | none => errorJSON
    else
      errorJSON
  { code := errorJSON.code, message := errorJSON.error }

/-- How one dispatched call ended: a synchronous throw, a resolved
promise, or a rejected promise. -/
inductive Outcome where
  | thrown : String → Outcome
  | resolved : String → Outcome
  | rejected : AVError → Outcome
  deriving DecidableEq, Repr

/-- The observable result of a dispatch: its outcome plus the effects
on the collaborators (router refreshes, current-user lookups, and the
transport invocation with its full argument record, if any). -/
structure DispatchResult where
  outcome : Outcome
  refreshCalls : Nat
  userLookups : Nat
  ajaxCall : Option AjaxReq

/-- The argument record of `request`; `data` defaults to `{}`. -/
structure Descriptor where
  service : Option String := none
  version : Option String := none
  method : JsStr := none
  path : JsStr := none
  query : Option JsObj := none
  data : Option JsObj := some (objOf [])
  authOptions : AuthOptions := {}

/-- The dispatcher `request({service, version, method, path, query, data, authOptions})`.
`refreshCalls` counts the fire-and-forget `AV._appRouter.refresh()`;
`setHeaders` is called with a single argument, so `signKey` is falsy. -/
def request (env : Env) (d : Descriptor) : DispatchResult :=
  if !(jsTruthy env.av.applicationId &&
       (jsTruthy env.av.applicationKey || jsTruthy env.av.masterKey)) then
    { outcome := Outcome.thrown "Not initialized", refreshCalls := 0, userLookups := 0,
      ajaxCall := none }
  else
    match createApiUrl env.av d.service d.version d.path with
    | Except.error msg =>
      { outcome := Outcome.thrown msg, refreshCalls := 1, userLookups := 0, ajaxCall := none }
    | Except.ok url =>
      let sh := setHeaders env d.authOptions false
      let req : AjaxReq :=
        { method := d.method, url := url, query := d.query, data := d.data,
          headers := sh.headers }
      match env.ajaxResp req with
      | Except.ok body =>
        { outcome := Outcome.resolved body, refreshCalls := 1, userLookups := sh.userLookups,
          ajaxCall := some req }
      | Except.error e =>
        { outcome := Outcome.rejected (handleError env.parseJSON e), refreshCalls := 1,
          userLookups := sh.userLookups, ajaxCall := some req }

/-- The legacy adapter `_request(route, className, objectId, method,
data, authOptions, query)`. -/
def _request (env : Env) (route className objectId : JsStr) (method : JsStr)
    (data : Option JsObj) (authOptions : AuthOptions) (query : Option JsObj) :
    DispatchResult :=
  let path := ""
  let path := if jsTruthy route then path ++ "/" ++ jsStrVal route else path
  let path := if jsTruthy className then path ++ "/" ++ jsStrVal className else path
  let path := if jsTruthy objectId then path ++ "/" ++ jsStrVal objectId else path
  if objTruthyProp data "_fetchWhenSave" then
    { outcome := Outcome.thrown "_fetchWhenSave should be in the query", refreshCalls := 0,
      userLookups := 0, ajaxCall := none }
  else if objTruthyProp data "_where" then
    { outcome := Outcome.thrown "_where should be in the query", refreshCalls := 0,
      userLookups := 0, ajaxCall := none }
  else
    let dq : Option JsObj × Option JsObj :=
      if jsTruthy method ∧ jsToLower (jsStrVal method) = "get" then
        (none, some (extend2 query data))
      else
        (data, query)
    request env
      { method := method, path := some path, query := dq.2, data := dq.1,
        authOptions := authOptions }

/-- The claimed tri-state precedence for the elevated-key decision,
written from the words of the spec, to be compared with `setHeaders`. -/
def specUseMasterKey (authOptions : AuthOptions) (configUseMasterKey : Option Bool) : Bool :=
  match authOptions.useMasterKey with
  | some b => b
  | none =>
    match configUseMasterKey with
    | some b => b
    | none => false

/-- A fully configured global state used by concrete witnesses. -/
def avGood : AVState :=
  { applicationId := some "appid", applicationKey := some "appkey", masterKey := some "mkey",
    hookKey := none, configUseMasterKey := none, configProduction := none,
    configUserAgent := "ua", configDisableCurrentUser := true,
    serverURLs := fun s => if s = "api" then some "https://x.example/" else none }

/-- A well-initialized environment whose transport always succeeds. -/
def envGood : Env := { av := avGood, ajaxResp := fun _ => Except.ok "ok" }

/-- An environment whose application identifier is unset. -/
def envBad : Env := { av := { applicationId := none, applicationKey := some "appkey" } }

/-- If a dispatch reached the transport, the transported record carries
the method, query and body of the descriptor, and the headers built with the
signed-transmission flag unset. -/
theorem request_ajaxCall_inv (env : Env) (d : Descriptor) (req : AjaxReq)
    (h : (request env d).ajaxCall = some req) :
    req.method = d.method ∧ req.query = d.query ∧ req.data = d.data ∧
      req.headers = (setHeaders env d.authOptions false).headers := by
  unfold request at h
  split at h
  · simp at h
  · split at h
    · simp at h
    · dsimp only at h
      split at h <;> simp_all <;> subst h <;> simp

/-- C1: if the application identifier is unset, or both the application
key and the master key are unset, `request` throws the configuration
error `"Not initialized"` synchronously: the outcome is a direct throw
(not an asynchronous rejection), and neither the routing refresh, nor
the URL builder, nor the user lookup of the header builder, nor the
transport is invoked. -/
theorem request_not_initialized (env : Env) (d : Descriptor)
    (h : jsTruthy env.av.applicationId = false ∨
         (jsTruthy env.av.applicationKey = false ∧ jsTruthy env.av.masterKey = false)) :
    request env d =
      { outcome := Outcome.thrown "Not initialized", refreshCalls := 0, userLookups := 0,
        ajaxCall := none } := by
  unfold request
  rcases h with h | ⟨h1, h2⟩
  · simp [h]
  · simp [h1, h2]

/-- Witness for C1 at a concrete environment missing the application id. -/
theorem request_not_initialized_witness :
    (jsTruthy envBad.av.applicationId = false ∨
      (jsTruthy envBad.av.applicationKey = false ∧ jsTruthy envBad.av.masterKey = false)) ∧
    request envBad {} =
      { outcome := Outcome.thrown "Not initialized", refreshCalls := 0, userLookups := 0,
        ajaxCall := none } :=
  ⟨Or.inl (by decide), request_not_initialized envBad {} (Or.inl (by decide))⟩

/-- C2 fails as stated: a nested response object whose numeric `code`
field is `0` is skipped by `handleError` (the source tests the truthiness
of that field, and `0` is falsy), so the own fields of the raw error are
used instead of those of the response; moreover a successfully parsed textual body
that lacks a numeric `code` field yields a result whose code is not
numeric (it is the JS value `undefined`). -/
theorem handleError_claim_counterexample :
    handleError (fun _ => none)
        { code := some 5, message := some "m", responseText := none,
          response := some { code := some 0, error := some "boom" } } ≠
      { code := some 0, message := some "boom" } ∧
    (handleError (fun s => if s = "body" then some { code := none, error := some "x" } else none)
        { code := none, message := none, responseText := some "body",
          response := none }).code = none := by
  exact ⟨by decide, by decide⟩

/-- C2 (amended): `handleError` is total by construction and applies a
three-tier first-match-wins precedence in which tier 1 fires only when
the `code` field of the nested response is truthy (non-zero): (1) if the raw
error carries a nested response with truthy numeric `code`, that
the `code`/`error` fields of that response are used directly; (2) else if it
carries a truthy raw textual body that parses, the parsed `code`/`error`
fields are used; (3) else the result is
`{code: rawError.code or -1, error: rawError.message or rawError.responseText}`.
The code of the result is numeric in tiers 1 and 3; in tier 2 it is
whatever the parsed body holds, possibly undefined. -/
theorem handleError_precedence (p : String → Option ErrJson) (e : RawError) :
    (∀ r, e.response = some r → intTruthy r.code = true →
      handleError p e = { code := r.code, message := r.error }) ∧
    ((match e.response with | some r => intTruthy r.code | none => false) = false →
      ∀ s j, e.responseText = some s → s ≠ "" → p s = some j →
        handleError p e = { code := j.code, message := j.error }) ∧
    ((match e.response with | some r => intTruthy r.code | none => false) = false →
      (jsTruthy e.responseText = false ∨ ∀ s, e.responseText = some s → p s = none) →
      handleError p e =
        { code := if intTruthy e.code then e.code else some (-1),
          message := jsOr e.message e.responseText }) := by
  refine ⟨?_, ?_, ?_⟩
  · intro r hr hc
    simp [handleError, hr, hc]
  · intro hno s j hs hsne hp
    have ht : jsTruthy (some s) = true := by simp [jsTruthy, hsne]
    simp [handleError, hno, hs, ht, jsStrVal, hp]
  · intro hno hpf
    rcases hpf with h | h
    · simp [handleError, hno, h]
    · cases hrt : e.responseText with
      | none => simp [handleError, hno, hrt, jsTruthy]
      | some s => simp [handleError, hno, hrt, jsStrVal, h s hrt]

/-- Witness for the amended theorem of C2: one concrete input per tier. -/
theorem handleError_precedence_witness :
    handleError (fun _ => none)
        { code := none, message := none, responseText := none,
          response := some { code := some 7, error := some "x" } } =
      { code := some 7, message := some "x" } ∧
    handleError (fun s => if s = "body" then some { code := some 8, error := some "y" } else none)
        { code := none, message := none, responseText := some "body", response := none } =
      { code := some 8, message := some "y" } ∧
    handleError (fun _ => none)
        { code := none, message := some "m", responseText := none, response := none } =
      { code := some (-1), message := some "m" } := by
  refine ⟨?_, ?_, ?_⟩
  · exact (handleError_precedence (fun _ => none)
      { code := none, message := none, responseText := none,
        response := some { code := some 7, error := some "x" } }).1
      { code := some 7, error := some "x" } rfl (by decide)
  · exact (handleError_precedence
      (fun s => if s = "body" then some { code := some 8, error := some "y" } else none)
      { code := none, message := none, responseText := some "body", response := none }).2.1
      (by decide) "body" { code := some 8, error := some "y" } rfl (by decide) (by decide)
  · exact (handleError_precedence (fun _ => none)
      { code := none, message := some "m", responseText := none, response := none }).2.2
      (by decide) (Or.inl (by decide))

/-- Looking up the plain key header in the synchronously built headers,
with the signed-transmission flag unset. -/
theorem setHeadersSync_get_key (env : Env) (auth : AuthOptions) :
    setHeadersSync env auth false "X-LC-Key" =
      some (if resolveUseMasterKey auth env.av.configUseMasterKey && jsTruthy env.av.masterKey
            then some (jsStrVal env.av.masterKey ++ ",master")
            else env.av.applicationKey) := by
  unfold setHeadersSync setAppId
  cases hd : resolveUseMasterKey auth env.av.configUseMasterKey <;>
    cases hmk : jsTruthy env.av.masterKey <;>
    cases hp : env.av.configProduction <;>
    cases hh : jsTruthy env.av.hookKey <;>
    cases hcp : jsTruthy env.clientPlatform <;>
    simp [hset, hd, hmk, hp, hh, hcp]

/-- The signature header is never set when the signed-transmission flag
is unset. -/
theorem setHeadersSync_get_sign (env : Env) (auth : AuthOptions) :
    setHeadersSync env auth false "X-LC-Sign" = none := by
  unfold setHeadersSync setAppId
  cases hd : resolveUseMasterKey auth env.av.configUseMasterKey <;>
    cases hmk : jsTruthy env.av.masterKey <;>
    cases hp : env.av.configProduction <;>
    cases hh : jsTruthy env.av.hookKey <;>
    cases hcp : jsTruthy env.clientPlatform <;>
    simp [hset, hd, hmk, hp, hh, hcp]

/-- The synchronous part never sets the session header. -/
theorem setHeadersSync_get_session (env : Env) (auth : AuthOptions) (signKey : Bool) :
    setHeadersSync env auth signKey "X-LC-Session" = none := by
  unfold setHeadersSync setAppId
  cases hd : resolveUseMasterKey auth env.av.configUseMasterKey <;>
    cases hsk : signKey <;>
    cases hmk : jsTruthy env.av.masterKey <;>
    cases hp : env.av.configProduction <;>
    cases hh : jsTruthy env.av.hookKey <;>
    cases hcp : jsTruthy env.clientPlatform <;>
    simp [hset, hd, hmk, hp, hh, hcp]

/-- The asynchronous step of `setHeaders` changes no header other than
the session header. -/
theorem setHeaders_get_ne_session (env : Env) (auth : AuthOptions) (signKey : Bool)
    (k : String) (hk : k ≠ "X-LC-Session") :
    (setHeaders env auth signKey).headers k = setHeadersSync env auth signKey k := by
  unfold setHeaders
  dsimp only
  split
  · simp [hset, hk]
  · split
    · cases env.currentUser with
      | none => rfl
      | some cu =>
        dsimp only
        split
        · simp [hset, hk]
        · rfl
    · rfl

/-- An environment whose global configuration defaults the elevated-key
decision to `true`. -/
def envCfgTrue : Env :=
  { av := { avGood with configUseMasterKey := some true }, ajaxResp := fun _ => Except.ok "ok" }

/-- C3: the "use elevated (master) key" decision follows the tri-state
precedence claimed by the spec: an explicitly boolean per-call
`AuthOptions.useMasterKey` wins (so an explicit `false` suppresses a
global default of `true`); otherwise an explicitly boolean global
`useMasterKey` is used; otherwise the elevated key is not used.  The
decision computed by the code equals the spec-side `specUseMasterKey`,
`setHeaders` behaves exactly as if the per-call flag were that resolved
boolean, and the resolved decision is what selects the key material. -/
theorem setHeaders_masterKey_decision (env : Env) (auth : AuthOptions) (signKey : Bool) :
    resolveUseMasterKey auth env.av.configUseMasterKey =
      specUseMasterKey auth env.av.configUseMasterKey ∧
    setHeaders env auth signKey =
      setHeaders env { useMasterKey := some (specUseMasterKey auth env.av.configUseMasterKey),
                       sessionToken := auth.sessionToken } signKey ∧
    (specUseMasterKey auth env.av.configUseMasterKey = true → jsTruthy env.av.masterKey = true →
      (setHeaders env auth false).headers "X-LC-Key" =
        some (some (jsStrVal env.av.masterKey ++ ",master"))) ∧
    (specUseMasterKey auth env.av.configUseMasterKey = false →
      (setHeaders env auth false).headers "X-LC-Key" = some env.av.applicationKey) := by
  have heq : resolveUseMasterKey auth env.av.configUseMasterKey =
      specUseMasterKey auth env.av.configUseMasterKey := by
    cases h1 : auth.useMasterKey <;> cases h2 : env.av.configUseMasterKey <;>
      simp [resolveUseMasterKey, specUseMasterKey, h1, h2]
  have hd : resolveUseMasterKey auth env.av.configUseMasterKey =
      resolveUseMasterKey
        { useMasterKey := some (specUseMasterKey auth env.av.configUseMasterKey),
          sessionToken := auth.sessionToken }
        env.av.configUseMasterKey := by
    rw [heq]; rfl
  have hsync : ∀ sk, setHeadersSync env auth sk =
      setHeadersSync env
        { useMasterKey := some (specUseMasterKey auth env.av.configUseMasterKey),
          sessionToken := auth.sessionToken } sk := by
    intro sk
    unfold setHeadersSync
    rw [hd]
  refine ⟨heq, ?_, ?_, ?_⟩
  · unfold setHeaders getSessionToken
    rw [hsync]
  · intro hs hmk
    rw [setHeaders_get_ne_session env auth false "X-LC-Key" (by decide),
      setHeadersSync_get_key, heq, hs, hmk]
    rfl
  · intro hs
    rw [setHeaders_get_ne_session env auth false "X-LC-Key" (by decide),
      setHeadersSync_get_key, heq, hs]
    rfl

/-- Witness for C3: an explicit per-call `false` suppresses the global
default of `true`, and an explicit per-call `true` selects the master
key suffixed with `,master`. -/
theorem setHeaders_masterKey_decision_witness :
    (setHeaders envCfgTrue { useMasterKey := some false } false).headers "X-LC-Key" =
      some (some "appkey") ∧
    (setHeaders envCfgTrue { useMasterKey := some true } false).headers "X-LC-Key" =
      some (some ("mkey" ++ ",master")) := by
  constructor
  · exact (setHeaders_masterKey_decision envCfgTrue { useMasterKey := some false } false).2.2.2
      (by decide)
  · exact (setHeaders_masterKey_decision envCfgTrue { useMasterKey := some true } false).2.2.1
      (by decide) (by decide)

/-- C4: every call through the public `request` invokes the header
builder without the signed-transmission flag, so the transported header
set always contains the plain key header `X-LC-Key` — holding the
application key, or the master key suffixed with `,master` when the
elevated decision selects a present master key — and never contains the
signature header `X-LC-Sign`; in particular the two are never both
present. -/
theorem request_plain_key_only (env : Env) (d : Descriptor) (req : AjaxReq)
    (h : (request env d).ajaxCall = some req) :
    req.headers "X-LC-Sign" = none ∧
    req.headers "X-LC-Key" =
      some (if resolveUseMasterKey d.authOptions env.av.configUseMasterKey &&
              jsTruthy env.av.masterKey
            then some (jsStrVal env.av.masterKey ++ ",master")
            else env.av.applicationKey) := by
  obtain ⟨-, -, -, hh⟩ := request_ajaxCall_inv env d req h
  rw [hh]
  constructor
  · rw [setHeaders_get_ne_session env d.authOptions false "X-LC-Sign" (by decide),
      setHeadersSync_get_sign]
  · rw [setHeaders_get_ne_session env d.authOptions false "X-LC-Key" (by decide),
      setHeadersSync_get_key]

/-- The descriptor of a concrete dispatched call used by witnesses. -/
def desc4 : Descriptor := { method := some "GET", path := some "/ping" }

/-- The transport invocation `request envGood desc4` produces. -/
def req4 : AjaxReq :=
  { method := some "GET", url := "https://x.example/1.1/ping", query := none,
    data := some (objOf []), headers := (setHeaders envGood {} false).headers }

/-- Witness for C4 at a concrete dispatched call. -/
theorem request_plain_key_only_witness :
    (request envGood desc4).ajaxCall = some req4 ∧
    (req4.headers "X-LC-Sign" = none ∧ req4.headers "X-LC-Key" = some (some "appkey")) :=
  ⟨rfl, request_plain_key_only envGood desc4 req4 rfl⟩

/-- If a GET-method call through the legacy adapter reached the
transport, the transported body is null and the transported query is
the merge of `data` into `query`. -/
theorem _request_ajax_get (env : Env) (route className objectId method : JsStr)
    (data : Option JsObj) (authOptions : AuthOptions) (query : Option JsObj) (req : AjaxReq)
    (h1 : objTruthyProp data "_fetchWhenSave" = false)
    (h2 : objTruthyProp data "_where" = false)
    (hmt : jsTruthy method = true) (hget : jsToLower (jsStrVal method) = "get")
    (h : (_request env route className objectId method data authOptions query).ajaxCall =
      some req) :
    req.data = none ∧ req.query = some (extend2 query data) := by
  unfold _request at h
  simp only [h1, h2, Bool.false_eq_true, if_false] at h
  rw [if_pos (show jsTruthy method = true ∧ jsToLower (jsStrVal method) = "get" from
    ⟨hmt, hget⟩)] at h
  obtain ⟨-, hq, hd, -⟩ := request_ajaxCall_inv _ _ _ h
  exact ⟨hd, hq⟩

/-- If a non-GET call through the legacy adapter reached the transport,
the transported body and query are those of the caller, unchanged. -/
theorem _request_ajax_nonget (env : Env) (route className objectId method : JsStr)
    (data : Option JsObj) (authOptions : AuthOptions) (query : Option JsObj) (req : AjaxReq)
    (h1 : objTruthyProp data "_fetchWhenSave" = false)
    (h2 : objTruthyProp data "_where" = false)
    (hng : ¬(jsTruthy method = true ∧ jsToLower (jsStrVal method) = "get"))
    (h : (_request env route className objectId method data authOptions query).ajaxCall =
      some req) :
    req.data = data ∧ req.query = query := by
  unfold _request at h
  simp only [h1, h2, Bool.false_eq_true, if_false] at h
  rw [if_neg hng] at h
  obtain ⟨-, hq, hd, -⟩ := request_ajaxCall_inv _ _ _ h
  exact ⟨hd, hq⟩

/-- C5: in the legacy adapter, for every method that case-insensitively
equals "GET", the entire data mapping is merged into the query mapping
and the outgoing body becomes null; for non-GET methods, data and query
are passed through unchanged. -/
theorem _request_get_adaptation (env : Env) (route className objectId method : JsStr)
    (data : Option JsObj) (authOptions : AuthOptions) (query : Option JsObj) (req : AjaxReq)
    (h1 : objTruthyProp data "_fetchWhenSave" = false)
    (h2 : objTruthyProp data "_where" = false)
    (h : (_request env route className objectId method data authOptions query).ajaxCall =
      some req) :
    ((jsTruthy method = true ∧ jsToLower (jsStrVal method) = "get") →
      req.data = none ∧ req.query = some (extend2 query data)) ∧
    (¬(jsTruthy method = true ∧ jsToLower (jsStrVal method) = "get") →
      req.data = data ∧ req.query = query) := by
  constructor
  · intro hg
    exact _request_ajax_get env route className objectId method data authOptions query req
      h1 h2 hg.1 hg.2 h
  · intro hng
    exact _request_ajax_nonget env route className objectId method data authOptions query req
      h1 h2 hng h

/-- A concrete body `{a: 1}` for the GET-adaptation example. -/
def dataA : Option JsObj := some (objOf [("a", JsVal.vnum 1)])

/-- A concrete query `{b: 2}` for the GET-adaptation example. -/
def queryB : Option JsObj := some (objOf [("b", JsVal.vnum 2)])

/-- The transport invocation the GET-adaptation example produces. -/
def req5 : AjaxReq :=
  { method := some "GET", url := "https://x.example/1.1", query := some (extend2 queryB dataA),
    data := none, headers := (setHeaders envGood {} false).headers }

/-- Witness for C5: the example of the spec — `data = {a: 1}`, `query = {b: 2}`
under method "GET" — is transported with a null body and a merged query
holding `a = 1` and `b = 2`. -/
theorem _request_get_adaptation_witness :
    (_request envGood none none none (some "GET") dataA {} queryB).ajaxCall = some req5 ∧
    (req5.data = none ∧ req5.query = some (extend2 queryB dataA)) ∧
    extend2 queryB dataA "a" = some (JsVal.vnum 1) ∧
    extend2 queryB dataA "b" = some (JsVal.vnum 2) :=
  ⟨rfl,
   (_request_get_adaptation envGood none none none (some "GET") dataA {} queryB req5
      rfl rfl rfl).1 ⟨rfl, rfl⟩,
   rfl, rfl⟩

/-- C6: in the GET adaptation of the legacy adapter, a key present in both
`data` and the pre-existing `query` takes its value from `data` in the
merged query (the merge applies `data` after `query`). -/
theorem _request_get_merge_data_wins (env : Env) (route className objectId method : JsStr)
    (dobj qobj : JsObj) (authOptions : AuthOptions) (k : String) (v w : JsVal) (req : AjaxReq)
    (h1 : objTruthyProp (some dobj) "_fetchWhenSave" = false)
    (h2 : objTruthyProp (some dobj) "_where" = false)
    (hmt : jsTruthy method = true) (hget : jsToLower (jsStrVal method) = "get")
    (hd : dobj k = some v) (_hq : qobj k = some w)
    (h : (_request env route className objectId method (some dobj) authOptions
        (some qobj)).ajaxCall = some req) :
    ∃ q2, req.query = some q2 ∧ q2 k = some v := by
  obtain ⟨-, hquery⟩ := _request_ajax_get env route className objectId method (some dobj)
    authOptions (some qobj) req h1 h2 hmt hget h
  refine ⟨extend2 (some qobj) (some dobj), hquery, ?_⟩
  dsimp only [extend2]
  rw [hd]

/-- A body `{a: 1}` that conflicts with `queryA9` on key `a`. -/
def dataA1 : JsObj := objOf [("a", JsVal.vnum 1)]

/-- A query `{a: 9}` that conflicts with `dataA1` on key `a`. -/
def queryA9 : JsObj := objOf [("a", JsVal.vnum 9)]

/-- The transport invocation of the merge-conflict example. -/
def req6 : AjaxReq :=
  { method := some "get", url := "https://x.example/1.1",
    query := some (extend2 (some queryA9) (some dataA1)), data := none,
    headers := (setHeaders envGood {} false).headers }

/-- Witness for C6: with `data = {a: 1}` and `query = {a: 9}`, the
merged query carries `a = 1`. -/
theorem _request_get_merge_data_wins_witness :
    (_request envGood none none none (some "get") (some dataA1) {} (some queryA9)).ajaxCall =
      some req6 ∧
    ∃ q2, req6.query = some q2 ∧ q2 "a" = some (JsVal.vnum 1) :=
  ⟨rfl,
   _request_get_merge_data_wins envGood none none none (some "get") dataA1 queryA9 {}
     "a" (JsVal.vnum 1) (JsVal.vnum 9) req6 rfl rfl rfl rfl rfl rfl rfl⟩

/-- C7 fails as stated: a `data` mapping that contains the reserved key
`_fetchWhenSave` with a falsy value (here `false`) does not make the
legacy adapter throw — the source tests the truthiness of the value, not
the presence of the key — and the call reaches the transport. -/
theorem _request_reserved_counterexample :
    (_request envGood none none none (some "POST")
        (some (objOf [("_fetchWhenSave", JsVal.vbool false)])) {} none).outcome =
      Outcome.resolved "ok" ∧
    ((_request envGood none none none (some "POST")
        (some (objOf [("_fetchWhenSave", JsVal.vbool false)])) {} none).ajaxCall).isSome =
      true := by
  exact ⟨rfl, rfl⟩

/-- C7 (amended): if `data` contains the reserved key `_fetchWhenSave`
or the reserved key `_where` with a truthy value, the legacy adapter
throws synchronously — before the routing refresh, the header-builder
user lookup, or any transport activity — for every method, including
GET. -/
theorem _request_reserved_truthy (env : Env) (route className objectId method : JsStr)
    (data : Option JsObj) (authOptions : AuthOptions) (query : Option JsObj)
    (h : objTruthyProp data "_fetchWhenSave" = true ∨ objTruthyProp data "_where" = true) :
    ((_request env route className objectId method data authOptions query).outcome =
        Outcome.thrown "_fetchWhenSave should be in the query" ∨
     (_request env route className objectId method data authOptions query).outcome =
        Outcome.thrown "_where should be in the query") ∧
    (_request env route className objectId method data authOptions query).refreshCalls = 0 ∧
    (_request env route className objectId method data authOptions query).userLookups = 0 ∧
    (_request env route className objectId method data authOptions query).ajaxCall = none := by
  unfold _request
  rcases h with h | h
  · simp [h]
  · cases hf : objTruthyProp data "_fetchWhenSave" <;> simp [h, hf]

/-- A body carrying the reserved key `_where` with a truthy value. -/
def dataWhere : Option JsObj := some (objOf [("_where", JsVal.vbool true)])

/-- Witness for the amended theorem of C7: a truthy `_where` in `data` makes
the adapter throw with no collaborator effect, even under GET. -/
theorem _request_reserved_truthy_witness :
    ((_request envGood none none none (some "GET") dataWhere {} none).outcome =
        Outcome.thrown "_fetchWhenSave should be in the query" ∨
     (_request envGood none none none (some "GET") dataWhere {} none).outcome =
        Outcome.thrown "_where should be in the query") ∧
    (_request envGood none none none (some "GET") dataWhere {} none).refreshCalls = 0 ∧
    (_request envGood none none none (some "GET") dataWhere {} none).userLookups = 0 ∧
    (_request envGood none none none (some "GET") dataWhere {} none).ajaxCall = none :=
  _request_reserved_truthy envGood none none none (some "GET") dataWhere {} none (Or.inr rfl)

/-- A list whose last element is `c` is its `dropLast` followed by `c`. -/
theorem eq_dropLast_append_of_getLast? (l : List Char) (c : Char)
    (h : l.getLast? = some c) : l = l.dropLast ++ [c] := by
  induction l with
  | nil => simp at h
  | cons a t ih =>
    cases t with
    | nil =>
      simp only [List.getLast?_singleton, Option.some.injEq] at h
      simp [h]
    | cons b t2 =>
      rw [List.getLast?_cons_cons] at h
      have h2 := ih h
      conv_lhs => rw [show a :: b :: t2 = a :: (b :: t2) from rfl, h2]
      simp

/-- A string ending in a path separator is a prefix followed by `"/"`. -/
theorem string_eq_dropLast_append_slash (u : String) (h : u.data.getLast? = some '/') :
    u = String.mk u.data.dropLast ++ "/" := by
  cases u with
  | mk l =>
    show String.mk l = String.mk l.dropLast ++ String.mk ['/']
    rw [show String.mk l.dropLast ++ String.mk ['/'] = String.mk (l.dropLast ++ ['/']) from rfl]
    exact congrArg String.mk (eq_dropLast_append_of_getLast? l '/' h)

/-- C8: for every service table, service name (default "api"), version
(default "1.1") and path, the URL builder throws an error naming the
missing service when the table holds no usable entry for it; otherwise
it returns the base URL joined to the version with exactly one path
separator between them (the own trailing separator of the base, if any, is
the one used), followed by the path verbatim, with nothing appended when
the path is empty or absent. -/
theorem createApiUrl_spec (av : AVState) (service version : Option String) (path : JsStr) :
    (jsTruthy (av.serverURLs (service.getD "api")) = false →
      createApiUrl av service version path =
        Except.error ("undefined server URL for " ++ service.getD "api")) ∧
    (∀ u, av.serverURLs (service.getD "api") = some u → u ≠ "" →
      ∃ b, (u = b ∨ u = b ++ "/") ∧
        createApiUrl av service version path =
          Except.ok (b ++ "/" ++ version.getD "1.1" ++
            (if jsTruthy path then jsStrVal path else ""))) := by
  constructor
  · intro hf
    simp [createApiUrl, hf]
  · intro u hu hne
    have ht2 : jsTruthy (some u) = true := by simp [jsTruthy, hne]
    by_cases hb : u.data.getLast? = some '/'
    · have hdecomp := string_eq_dropLast_append_slash u hb
      refine ⟨String.mk u.data.dropLast, Or.inr hdecomp, ?_⟩
      simp only [createApiUrl, hu, ht2, Bool.not_true, Bool.false_eq_true, if_false, jsStrVal,
        hb, ne_eq, not_true_eq_false]
      cases hpt : jsTruthy path
      · simp only [Bool.false_eq_true, if_false]
        rw [← hdecomp, String.append_empty]
      · simp only [if_true]
        rw [← hdecomp]
    · refine ⟨u, Or.inl rfl, ?_⟩
      simp only [createApiUrl, hu, ht2, Bool.not_true, Bool.false_eq_true, if_false, jsStrVal,
        hb, ne_eq, not_false_eq_true, if_true]
      cases hpt : jsTruthy path
      · simp only [Bool.false_eq_true, if_false]
        rw [String.append_empty]
      · simp only [if_true]

/-- Witness for C8: a missing service throws naming the service, and
the example table of the spec yields the expected joined URL. -/
theorem createApiUrl_spec_witness :
    createApiUrl avGood (some "push") none none =
      Except.error ("undefined server URL for " ++ "push") ∧
    (∃ b, ("https://x.example/" = b ∨ "https://x.example/" = b ++ "/") ∧
      createApiUrl avGood none none (some "/things") =
        Except.ok (b ++ "/" ++ "1.1" ++ "/things")) ∧
    createApiUrl avGood none none (some "/things") =
      Except.ok "https://x.example/1.1/things" := by
  refine ⟨?_, ?_, ?_⟩
  · exact (createApiUrl_spec avGood (some "push") none none).1 (by decide)
  · exact (createApiUrl_spec avGood none none (some "/things")).2 "https://x.example/" rfl
      (by decide)
  · rfl

/-- C9: if the per-call AuthOptions carries a truthy explicit session
token, it becomes the session header and the current-user provider is
not queried; otherwise, with automatic lookup disabled the provider is
not queried and no session header appears, and with automatic lookup
enabled the provider is queried exactly once and the session header is
attached exactly when it yields a user with a truthy session token; and
the asynchronous step changes no header other than the session header.
The session-token extraction is spec-modelled (`getSessionToken` lives
outside the embedded sources). -/
theorem setHeaders_session_spec (env : Env) (auth : AuthOptions) (signKey : Bool) :
    (jsTruthy auth.sessionToken = true →
      (setHeaders env auth signKey).userLookups = 0 ∧
      (setHeaders env auth signKey).headers "X-LC-Session" = some auth.sessionToken) ∧
    (jsTruthy auth.sessionToken = false → env.av.configDisableCurrentUser = true →
      (setHeaders env auth signKey).userLookups = 0 ∧
      (setHeaders env auth signKey).headers "X-LC-Session" = none) ∧
    (jsTruthy auth.sessionToken = false → env.av.configDisableCurrentUser = false →
      (setHeaders env auth signKey).userLookups = 1 ∧
      (∀ cu, env.currentUser = some cu → jsTruthy cu._sessionToken = true →
        (setHeaders env auth signKey).headers "X-LC-Session" = some cu._sessionToken) ∧
      ((match env.currentUser with
        | some cu => jsTruthy cu._sessionToken
        | none => false) = false →
        (setHeaders env auth signKey).headers "X-LC-Session" = none)) ∧
    (∀ k, k ≠ "X-LC-Session" →
      (setHeaders env auth signKey).headers k = setHeadersSync env auth signKey k) := by
  refine ⟨?_, ?_, ?_, setHeaders_get_ne_session env auth signKey⟩
  · intro hst
    constructor
    · simp [setHeaders, getSessionToken, hst]
    · simp [setHeaders, getSessionToken, hst, hset]
  · intro hst hd
    constructor
    · simp [setHeaders, getSessionToken, hst, hd]
    · simp [setHeaders, getSessionToken, hst, hd, setHeadersSync_get_session]
  · intro hst hd
    cases hcu : env.currentUser with
    | none =>
      refine ⟨?_, ?_, ?_⟩
      · simp [setHeaders, getSessionToken, hst, hd, hcu]
      · intro cu hcu2 hts2
        exact Option.noConfusion hcu2
      · intro hm
        simp [setHeaders, getSessionToken, hst, hd, hcu, setHeadersSync_get_session]
    | some cu =>
      cases hts : jsTruthy cu._sessionToken with
      | true =>
        refine ⟨?_, ?_, ?_⟩
        · simp [setHeaders, getSessionToken, hst, hd, hcu, hts]
        · intro cu2 hcu2 hts2
          injection hcu2 with he
          subst he
          simp [setHeaders, getSessionToken, hst, hd, hcu, hts, hset]
        · intro hm
          simp [hts] at hm
      | false =>
        refine ⟨?_, ?_, ?_⟩
        · simp [setHeaders, getSessionToken, hst, hd, hcu, hts]
        · intro cu2 hcu2 hts2
          injection hcu2 with he
          subst he
          exact absurd hts2 (by simp [hts])
        · intro hm
          simp [setHeaders, getSessionToken, hst, hd, hcu, hts, setHeadersSync_get_session]

/-- An environment with automatic session lookup enabled and a current
user holding a session token. -/
def envUser : Env :=
  { av := { avGood with configDisableCurrentUser := false },
    currentUser := some { _sessionToken := some "utok" },
    ajaxResp := fun _ => Except.ok "ok" }

/-- Witness for C9: an explicit token suppresses the lookup; with no
explicit token and lookup enabled, the provider is queried once and its
token becomes the session header. -/
theorem setHeaders_session_spec_witness :
    ((setHeaders envGood { sessionToken := some "tok" } false).userLookups = 0 ∧
     (setHeaders envGood { sessionToken := some "tok" } false).headers "X-LC-Session" =
       some (some "tok")) ∧
    (setHeaders envUser {} false).userLookups = 1 ∧
    (setHeaders envUser {} false).headers "X-LC-Session" = some (some "utok") := by
  refine ⟨(setHeaders_session_spec envGood { sessionToken := some "tok" } false).1 rfl, ?_, ?_⟩
  · exact ((setHeaders_session_spec envUser {} false).2.2.1 rfl rfl).1
  · exact ((setHeaders_session_spec envUser {} false).2.2.1 rfl rfl).2.1
      { _sessionToken := some "utok" } rfl rfl

/-- String concatenation acts as list concatenation on the underlying
character data. -/
theorem str_data_append (a b : String) : (a ++ b).data = a.data ++ b.data := by
  cases a; cases b; rfl

/-- Strings with equal character data are equal. -/
theorem str_ext (a b : String) (h : a.data = b.data) : a = b := by
  cases a
  cases b
  exact congrArg String.mk h

/-- Two signature strings of the shape produced by `sign` agree on the
digest part whenever the digests have equal length. -/
theorem sign_digest_inj (d1 d2 s1 s2 tail : String)
    (hlen : d1.length = d2.length)
    (h : d1 ++ "," ++ s1 ++ tail = d2 ++ "," ++ s2 ++ tail) : d1 = d2 := by
  have hd := congrArg String.data h
  simp only [str_data_append] at hd
  have hlen2 : ((d1.data ++ ",".data) ++ s1.data).length =
      ((d2.data ++ ",".data) ++ s2.data).length := by
    have hl := congrArg List.length hd
    simp only [List.length_append] at hl ⊢
    omega
  obtain ⟨h3, -⟩ := List.append_inj hd hlen2
  have hlen3 : (d1.data ++ ",".data).length = (d2.data ++ ",".data).length := by
    simp only [List.length_append]
    have hdl : d1.data.length = d2.data.length := hlen
    omega
  obtain ⟨h4, -⟩ := List.append_inj h3 hlen3
  obtain ⟨h5, -⟩ := List.append_inj h4 (by exact hlen)
  exact str_ext d1 d2 h5

/-- C10: `sign` returns `"<digest>,<t>"` where `t` is the wall-clock
time in milliseconds and the digest is the hash of `t` concatenated
with the secret, with `",master"` appended exactly when elevated; it is
a pure function of `(secret, t)`, so identical inputs within one
millisecond give identical output, and — the digest collaborator
producing fixed-length (32-character) output — calls in different
milliseconds whose digests differ give different output. -/
theorem sign_spec (md5 : String → String) (key : String) (isMasterKey : Bool) (t t2 : Nat)
    (hlen : ∀ s, (md5 s).length = 32) (_hne : t ≠ t2)
    (hdig : md5 (toString t ++ key) ≠ md5 (toString t2 ++ key)) :
    sign md5 t key isMasterKey =
      md5 (toString t ++ key) ++ "," ++ toString t ++
        (if isMasterKey then ",master" else "") ∧
    sign md5 t key isMasterKey ≠ sign md5 t2 key isMasterKey := by
  constructor
  · cases isMasterKey <;> simp [sign]
  · intro heq
    apply hdig
    cases isMasterKey with
    | true =>
      exact sign_digest_inj _ _ (toString t) (toString t2) ",master"
        (by rw [hlen, hlen]) heq
    | false =>
      have heq2 : md5 (toString t ++ key) ++ "," ++ toString t ++ "" =
          md5 (toString t2 ++ key) ++ "," ++ toString t2 ++ "" := by
        rw [String.append_empty, String.append_empty]
        exact heq
      exact sign_digest_inj _ _ (toString t) (toString t2) ""
        (by rw [hlen, hlen]) heq2

/-- A fixed-length digest collaborator distinguishing the two inputs of
the witness. -/
def md5w : String → String :=
  fun s => if s = "0k" then "aaaaaaaaaaaaaaaaaaaaaaaaaaaaaaaa"
           else "bbbbbbbbbbbbbbbbbbbbbbbbbbbbbbbb"

/-- Witness for C10 at a concrete digest function, secret and times. -/
theorem sign_spec_witness :
    (sign md5w 0 "k" true =
      md5w (toString (0 : Nat) ++ "k") ++ "," ++ toString (0 : Nat) ++
        (if true then ",master" else "")) ∧
    sign md5w 0 "k" true ≠ sign md5w 1 "k" true := by
  have hlen : ∀ s : String, (md5w s).length = 32 := by
    intro s
    unfold md5w
    split <;> rfl
  exact sign_spec md5w "k" true 0 1 hlen (by decide) (by decide)
